import Mathlib

/-! Verification of the Post CRUD service (src/server.js).

The service is an Express application over a Mongoose model `Post`.
Handlers are translated directly from src/server.js.  The storage layer
(mongoose `save`, `find().sort`, `findByIdAndUpdate`, `findByIdAndDelete`)
is third-party library code not present in this repository; those
operations are modelled from the specification's Record Store contract
(spec §4.1), combined with the options the source passes to them
(`runValidators: true`, the schema's `required: true` on `title` and
`content`, and the `default: 'Anonymous'` on `author`).

Time is modelled as a natural number passed to each operation; storage
faults are modelled by an explicit `fault : Option String` argument: when
it is `some e`, the storage call raises the error message `e`, which the
handler's try/catch converts to a response.
-/

namespace PostCrud

/-- A stored Post document.  `title`, `content`, `author` are `Option String`
because an update can write a field as absent (spec §3 lifecycle); `id` is the
server-assigned identifier; `createdAt` and `updatedAt` are the timestamps
added by the schema option `timestamps: true`. -/
structure Post where
  id : Nat
  title : Option String
  content : Option String
  author : Option String
  createdAt : Nat
  updatedAt : Nat
deriving Repr, DecidableEq

/-- The document collection plus the id generator state. -/
structure Store where
  posts : List Post
  nextId : Nat
deriving Repr, DecidableEq

/-- The `{ title, content, author }` fields destructured from a JSON request
body; a field absent from the body is `none`. -/
structure ReqBody where
  title : Option String
  content : Option String
  author : Option String
deriving Repr, DecidableEq

/-- JavaScript falsiness for an optional string value: `undefined` and the
empty string are falsy (src/server.js line 40 `if (!title || !content)`). -/
def jsFalsy : Option String → Bool
  | none => true
  | some s => s == ""

/-- The JavaScript expression `v || d` for an optional string `v`
(src/server.js line 51 `author: author || 'Anonymous'`). -/
def jsOr (v : Option String) (d : String) : String :=
  match v with
  | none => d
  | some s => if s == "" then d else s

/-- An HTTP JSON response: status code plus the envelope fields
`{ success, message?, error?, post?, posts? }` (spec §6). -/
structure ApiResponse where
  status : Nat
  success : Bool
  message : Option String
  error : Option String
  post : Option Post
  posts : Option (List Post)
deriving Repr, DecidableEq

/-- Modelled from the spec: the Record Store `Create` operation
(mongoose `new Post(...).save()`, library code not under src/).  Persists a
new record with a server-assigned id and both timestamps set to the current
time (spec §4.1); the schema's `required` validators reject a missing or
empty `title` or `content`, and the schema default stores `"Anonymous"` when
`author` is absent (src/server.js lines 19-26). -/
def Post.save (s : Store) (title content author : Option String) (now : Nat)
    (fault : Option String) : Except String (Post × Store) :=
  match fault with
  | some e => .error e
  | none =>
    if jsFalsy title then
      .error "Post validation failed: title is required"
    else if jsFalsy content then
      .error "Post validation failed: content is required"
    else
      let p : Post :=
        { id := s.nextId, title := title, content := content,
          author := some (author.getD "Anonymous"),
          createdAt := now, updatedAt := now }
      .ok (p, { posts := s.posts ++ [p], nextId := s.nextId + 1 })

/-- Creation-time descending order on posts: `a` comes before `b` when
`b.createdAt ≤ a.createdAt`. -/
def createdAtDesc (a b : Post) : Prop :=
  b.createdAt ≤ a.createdAt

instance : DecidableRel createdAtDesc :=
  fun a b => inferInstanceAs (Decidable (b.createdAt ≤ a.createdAt))

instance : IsTotal Post createdAtDesc :=
  ⟨fun a b => (Nat.le_total b.createdAt a.createdAt)⟩

instance : IsTrans Post createdAtDesc :=
  ⟨fun _ _ _ hab hbc => Nat.le_trans hbc hab⟩

/-- Modelled from the spec: the Record Store `ListAll` operation
(mongoose `Post.find().sort(\x7b createdAt: -1 \x7d)`, library code not under
src/): every record, ordered by `createdAt` descending (spec §4.1). -/
def Post.findSortedDesc (s : Store) (fault : Option String) :
    Except String (List Post) :=
  match fault with
  | some e => .error e
  | none => .ok (s.posts.insertionSort createdAtDesc)

/-- First record in the collection carrying the given id. -/
def findFirst (id : Nat) : List Post → Option Post
  | [] => none
  | q :: rest => if q.id = id then some q else findFirst id rest

/-- Replace the first record carrying the given id by the image under `f`. -/
def updateFirst (id : Nat) (f : Post → Post) : List Post → List Post
  | [] => []
  | q :: rest => if q.id = id then f q :: rest else q :: updateFirst id f rest

/-- Remove the first record carrying the given id. -/
def removeFirst (id : Nat) : List Post → List Post
  | [] => []
  | q :: rest => if q.id = id then rest else q :: removeFirst id rest

/-- Overwrite `title`, `content`, `author` with the values supplied in the
update body (absent when not supplied) and set the modification timestamp
(spec §4.1 `ReplaceFields`). -/
def applyUpdate (b : ReqBody) (now : Nat) (p : Post) : Post :=
  { p with title := b.title, content := b.content, author := b.author,
           updatedAt := now }

/-- The schema's `required` validator, as run on update with
`runValidators: true` on a path supplied in the update document: a field
supplied as the empty string fails the String `required` check. -/
def suppliedRequiredFails (v : Option String) : Bool :=
  match v with
  | some s => s == ""
  | none => false

/-- Modelled from the spec: the Record Store `ReplaceFields` operation
(mongoose `Post.findByIdAndUpdate(id, \x7b title, content, author \x7d,
\x7b new: true, runValidators: true \x7d)`, library code not under src/).
Locates the record by id, signalling `NotFound` as `ok none` when absent
(spec §4.1); otherwise runs the schema's `required` validators on the paths
supplied in the update (`runValidators: true`, src/server.js line 103),
then overwrites `title`, `content`, `author` with the supplied values —
each written as absent when not supplied (spec §3, §4.1) — updates the
modification timestamp, and returns the post-update record. -/
def Post.findByIdAndUpdate (s : Store) (id : Nat) (b : ReqBody) (now : Nat)
    (fault : Option String) : Except String (Option (Post × Store)) :=
  match fault with
  | some e => .error e
  | none =>
    match findFirst id s.posts with
    | none => .ok none
    | some p =>
      if suppliedRequiredFails b.title then
        .error "Validation failed: title is required"
      else if suppliedRequiredFails b.content then
        .error "Validation failed: content is required"
      else
        .ok (some (applyUpdate b now p,
          { s with posts := updateFirst id (applyUpdate b now) s.posts }))

/-- Modelled from the spec: the Record Store `DeleteById` operation
(mongoose `Post.findByIdAndDelete(id)`, library code not under src/).
Locates the record by id, signalling `NotFound` as `ok none` when absent;
otherwise removes it and returns its last state (spec §4.1). -/
def Post.findByIdAndDelete (s : Store) (id : Nat) (fault : Option String) :
    Except String (Option (Post × Store)) :=
  match fault with
  | some e => .error e
  | none =>
    match findFirst id s.posts with
    | none => .ok none
    | some p => .ok (some (p, { s with posts := removeFirst id s.posts }))

/-- Handler for `POST /api/posts` (src/server.js lines 35-72): 400 when
`!title || !content`; otherwise saves `\x7b title, content, author:
author || 'Anonymous' \x7d` and answers 201 with the saved record, or 500
with the caught error. -/
def createPostHandler (s : Store) (b : ReqBody) (now : Nat)
    (fault : Option String) : ApiResponse × Store :=
  if jsFalsy b.title || jsFalsy b.content then
    ({ status := 400, success := false,
       message := some "Title and content are required",
       error := none, post := none, posts := none }, s)
  else
    match Post.save s b.title b.content (some (jsOr b.author "Anonymous")) now fault with
    | .ok (p, s') =>
      ({ status := 201, success := true,
         message := some "Post created successfully!",
         error := none, post := some p, posts := none }, s')
    | .error e =>
      ({ status := 500, success := false, message := some "Server error",
         error := some e, post := none, posts := none }, s)

/-- Handler for `GET /api/posts` (src/server.js lines 78-88): 200 with all
posts sorted by `createdAt` descending, or 500 with the caught error. -/
def getPostsHandler (s : Store) (fault : Option String) :
    ApiResponse × Store :=
  match Post.findSortedDesc s fault with
  | .ok ps =>
    ({ status := 200, success := true, message := none, error := none,
       post := none, posts := some ps }, s)
  | .error e =>
    ({ status := 500, success := false, message := none, error := some e,
       post := none, posts := none }, s)

/-- Handler for `PUT /api/posts/:id` (src/server.js lines 94-127): calls
`findByIdAndUpdate` with the destructured body; 404 when no record matches,
200 with the updated record on success, 500 with the caught error. -/
def updatePostHandler (s : Store) (id : Nat) (b : ReqBody) (now : Nat)
    (fault : Option String) : ApiResponse × Store :=
  match Post.findByIdAndUpdate s id b now fault with
  | .ok none =>
    ({ status := 404, success := false, message := some "Post not found",
       error := none, post := none, posts := none }, s)
  | .ok (some (p, s')) =>
    ({ status := 200, success := true,
       message := some "Post updated successfully!",
       error := none, post := some p, posts := none }, s')
  | .error e =>
    ({ status := 500, success := false, message := some "Server error",
       error := some e, post := none, posts := none }, s)

/-- Handler for `DELETE /api/posts/:id` (src/server.js lines 133-161): calls
`findByIdAndDelete`; 404 when no record matches, 200 with the deleted record
on success, 500 with the caught error. -/
def deletePostHandler (s : Store) (id : Nat) (fault : Option String) :
    ApiResponse × Store :=
  match Post.findByIdAndDelete s id fault with
  | .ok none =>
    ({ status := 404, success := false, message := some "Post not found",
       error := none, post := none, posts := none }, s)
  | .ok (some (p, s')) =>
    ({ status := 200, success := true,
       message := some "Post deleted successfully!",
       error := none, post := some p, posts := none }, s')
  | .error e =>
    ({ status := 500, success := false, message := some "Server error",
       error := some e, post := none, posts := none }, s)

/-- A stored record satisfying the spec §3 invariant: non-empty `title`
and non-empty `content`. -/
def goodPost (p : Post) : Bool :=
  !jsFalsy p.title && !jsFalsy p.content

/-- Store states reachable from the empty store by any sequence of create,
update and delete requests (with any bodies, times and storage-fault
outcomes). -/
inductive Reachable : Store → Prop
  | empty : Reachable { posts := [], nextId := 0 }
  | create (s : Store) (b : ReqBody) (now : Nat) (fault : Option String) :
      Reachable s → Reachable (createPostHandler s b now fault).2
  | update (s : Store) (id : Nat) (b : ReqBody) (now : Nat)
      (fault : Option String) :
      Reachable s → Reachable (updatePostHandler s id b now fault).2
  | delete (s : Store) (id : Nat) (fault : Option String) :
      Reachable s → Reachable (deletePostHandler s id fault).2

/-- Store states reachable from the empty store when every update request
supplies both `title` and `content` in its body (create and delete requests
unrestricted). -/
inductive ReachableFull : Store → Prop
  | empty : ReachableFull { posts := [], nextId := 0 }
  | create (s : Store) (b : ReqBody) (now : Nat) (fault : Option String) :
      ReachableFull s → ReachableFull (createPostHandler s b now fault).2
  | update (s : Store) (id : Nat) (b : ReqBody) (now : Nat)
      (fault : Option String) : b.title ≠ none → b.content ≠ none →
      ReachableFull s → ReachableFull (updatePostHandler s id b now fault).2
  | delete (s : Store) (id : Nat) (fault : Option String) :
      ReachableFull s → ReachableFull (deletePostHandler s id fault).2

/-- The empty store the service starts from. -/
def store0 : Store := { posts := [], nextId := 0 }

/-- The store after one valid create request (title "a", content "b", no
author) at time 0. -/
def store1 : Store :=
  (createPostHandler store0 ⟨some "a", some "b", none⟩ 0 none).2

/-- The store after additionally updating id 0 with a body omitting all
three fields, at time 1. -/
def store2 : Store :=
  (updatePostHandler store1 0 ⟨none, none, none⟩ 1 none).2

section Helpers

theorem findFirst_eq_none {id : Nat} {l : List Post}
    (h : ∀ q ∈ l, q.id ≠ id) : findFirst id l = none := by
  induction l with
  | nil => rfl
  | cons q rest ih =>
    have hq : q.id ≠ id := h q (List.mem_cons_self q rest)
    simp only [findFirst, if_neg hq]
    exact ih fun q' hq' => h q' (List.mem_cons_of_mem q hq')

theorem findFirst_isSome {id : Nat} {l : List Post}
    (h : ∃ q ∈ l, q.id = id) : ∃ p, findFirst id l = some p := by
  induction l with
  | nil => simp at h
  | cons q rest ih =>
    by_cases hq : q.id = id
    · exact ⟨q, by simp [findFirst, hq]⟩
    · obtain ⟨q', hq', hid⟩ := h
      rcases List.mem_cons.mp hq' with rfl | hmem
      · exact absurd hid hq
      · obtain ⟨p, hp⟩ := ih ⟨q', hmem, hid⟩
        exact ⟨p, by simp [findFirst, hq, hp]⟩

/-- Decomposition of a successful lookup: the collection splits around the
first record with the given id, and `updateFirst` / `removeFirst` act only
on that record. -/
theorem findFirst_decomp {id : Nat} {l : List Post} {p : Post}
    (h : findFirst id l = some p) :
    ∃ l1 l2, l = l1 ++ p :: l2 ∧ p.id = id ∧ (∀ q ∈ l1, q.id ≠ id) ∧
      (∀ f, updateFirst id f l = l1 ++ f p :: l2) ∧
      removeFirst id l = l1 ++ l2 := by
  induction l with
  | nil => simp [findFirst] at h
  | cons q rest ih =>
    by_cases hq : q.id = id
    · simp only [findFirst, if_pos hq] at h
      obtain rfl : q = p := by injection h
      refine ⟨[], rest, rfl, hq, by simp, ?_, ?_⟩
      · intro f; simp [updateFirst, hq]
      · simp [removeFirst, hq]
    · simp only [findFirst, if_neg hq] at h
      obtain ⟨l1, l2, hl, hid, hl1, hu, hr⟩ := ih h
      refine ⟨q :: l1, l2, by simp [hl], hid, ?_, ?_, ?_⟩
      · intro q' hq'
        rcases List.mem_cons.mp hq' with rfl | hmem
        · exact hq
        · exact hl1 q' hmem
      · intro f; simp [updateFirst, hq, hu f]
      · simp [removeFirst, hq, hr]

theorem mem_updateFirst {id : Nat} {f : Post → Post} {l : List Post}
    {q' : Post} (h : q' ∈ updateFirst id f l) :
    q' ∈ l ∨ ∃ q, q ∈ l ∧ q' = f q := by
  induction l with
  | nil => simp [updateFirst] at h
  | cons q rest ih =>
    by_cases hq : q.id = id
    · simp only [updateFirst, if_pos hq] at h
      rcases List.mem_cons.mp h with rfl | hmem
      · exact Or.inr ⟨q, List.mem_cons_self q rest, rfl⟩
      · exact Or.inl (List.mem_cons_of_mem q hmem)
    · simp only [updateFirst, if_neg hq] at h
      rcases List.mem_cons.mp h with rfl | hmem
      · exact Or.inl (List.mem_cons_self q' rest)
      · rcases ih hmem with hmem' | ⟨q0, hq0, rfl⟩
        · exact Or.inl (List.mem_cons_of_mem q hmem')
        · exact Or.inr ⟨q0, List.mem_cons_of_mem q hq0, rfl⟩

theorem mem_removeFirst {id : Nat} {l : List Post} {q' : Post}
    (h : q' ∈ removeFirst id l) : q' ∈ l := by
  induction l with
  | nil => simp [removeFirst] at h
  | cons q rest ih =>
    by_cases hq : q.id = id
    · simp only [removeFirst, if_pos hq] at h
      exact List.mem_cons_of_mem q h
    · simp only [removeFirst, if_neg hq] at h
      rcases List.mem_cons.mp h with rfl | hmem
      · exact List.mem_cons_self q' rest
      · exact List.mem_cons_of_mem q (ih hmem)

end Helpers

/-- C1: for every create request whose body contains a non-empty title and a
non-empty content, the POST /api/posts handler returns status 201 with a
record that carries a newly generated id, the given title and content, and
whose author field equals "Anonymous" whenever author was absent (or empty)
in the request; the record is persisted in the store. -/
theorem create_valid_body_yields_201 (s : Store) (b : ReqBody) (now : Nat)
    (ht : jsFalsy b.title = false) (hc : jsFalsy b.content = false)
    (hwf : ∀ q ∈ s.posts, q.id < s.nextId) :
    ∃ p s',
      createPostHandler s b now none =
        ({ status := 201, success := true,
           message := some "Post created successfully!",
           error := none, post := some p, posts := none }, s') ∧
      p.title = b.title ∧ p.content = b.content ∧
      (jsFalsy b.author = true → p.author = some "Anonymous") ∧
      p ∈ s'.posts ∧ (∀ q ∈ s.posts, q.id ≠ p.id) := by
  refine ⟨{ id := s.nextId, title := b.title, content := b.content,
            author := some (jsOr b.author "Anonymous"),
            createdAt := now, updatedAt := now },
          { posts := s.posts ++
              [{ id := s.nextId, title := b.title, content := b.content,
                 author := some (jsOr b.author "Anonymous"),
                 createdAt := now, updatedAt := now }],
            nextId := s.nextId + 1 }, ?_, rfl, rfl,
          ?_, ?_, ?_⟩
  · simp [createPostHandler, Post.save, ht, hc]
  · intro ha
    cases hb : b.author with
    | none => simp [jsOr]
    | some a =>
      rw [hb] at ha
      simp only [jsFalsy] at ha
      simp [jsOr, ha]
  · simp
  · intro q hq
    exact Nat.ne_of_lt (hwf q hq)

/-- Witness for C1 at a concrete request on the empty store. -/
theorem create_valid_body_yields_201_witness :
    ∃ p s',
      createPostHandler store0 ⟨some "a", some "b", none⟩ 0 none =
        ({ status := 201, success := true,
           message := some "Post created successfully!",
           error := none, post := some p, posts := none }, s') ∧
      p.title = some "a" ∧ p.content = some "b" ∧
      (jsFalsy (none : Option String) = true → p.author = some "Anonymous") ∧
      p ∈ s'.posts ∧ (∀ q ∈ store0.posts, q.id ≠ p.id) :=
  create_valid_body_yields_201 store0 ⟨some "a", some "b", none⟩ 0
    (by decide) (by decide) (by intro q hq; simp [store0] at hq)

/-- C4: for every create request whose body is missing title or missing
content, the POST /api/posts handler returns status 400 with a
success:false envelope and the store is unchanged; the 400 is produced
before the storage call, for every storage-fault outcome. -/
theorem create_missing_field_yields_400 (s : Store) (b : ReqBody) (now : Nat)
    (fault : Option String) (h : b.title = none ∨ b.content = none) :
    createPostHandler s b now fault =
      ({ status := 400, success := false,
         message := some "Title and content are required",
         error := none, post := none, posts := none }, s) := by
  rcases h with h | h <;> simp [createPostHandler, h, jsFalsy]

/-- Witness for C4 at a concrete request missing content. -/
theorem create_missing_field_yields_400_witness :
    createPostHandler store1 ⟨some "t", none, some "x"⟩ 7 none =
      ({ status := 400, success := false,
         message := some "Title and content are required",
         error := none, post := none, posts := none }, store1) :=
  create_missing_field_yields_400 store1 ⟨some "t", none, some "x"⟩ 7 none
    (Or.inr rfl)

/-- C5: for every store state, GET /api/posts returns status 200 with a
sequence of records that is a permutation of the stored records, ordered by
createdAt in non-increasing order; an empty store yields the empty
sequence. -/
theorem list_returns_sorted_desc (s : Store) :
    ∃ l, getPostsHandler s none =
      ({ status := 200, success := true, message := none, error := none,
         post := none, posts := some l }, s) ∧
      l.Perm s.posts ∧ l.Sorted createdAtDesc ∧
      (s.posts = [] → l = []) := by
  refine ⟨s.posts.insertionSort createdAtDesc, rfl,
    List.perm_insertionSort createdAtDesc s.posts,
    List.sorted_insertionSort createdAtDesc s.posts, ?_⟩
  intro h
  rw [h]
  rfl

/-- Witness for C5 at the empty store. -/
theorem list_returns_sorted_desc_witness :
    ∃ l, getPostsHandler store0 none =
      ({ status := 200, success := true, message := none, error := none,
         post := none, posts := some l }, store0) ∧
      l.Perm store0.posts ∧ l.Sorted createdAtDesc ∧
      (store0.posts = [] → l = []) :=
  list_returns_sorted_desc store0

/-- C6: for every update request whose id matches no stored record, the
PUT /api/posts/:id handler returns status 404 with a success:false envelope
and the store is unchanged. -/
theorem update_missing_id_yields_404 (s : Store) (id : Nat) (b : ReqBody)
    (now : Nat) (h : ∀ q ∈ s.posts, q.id ≠ id) :
    updatePostHandler s id b now none =
      ({ status := 404, success := false, message := some "Post not found",
         error := none, post := none, posts := none }, s) := by
  simp [updatePostHandler, Post.findByIdAndUpdate, findFirst_eq_none h]

/-- Witness for C6 at a concrete id absent from the one-record store. -/
theorem update_missing_id_yields_404_witness :
    updatePostHandler store1 99 ⟨some "x", some "y", none⟩ 3 none =
      ({ status := 404, success := false, message := some "Post not found",
         error := none, post := none, posts := none }, store1) :=
  update_missing_id_yields_404 store1 99 ⟨some "x", some "y", none⟩ 3
    (by decide)

/-- C2 (counterexample): on the one-record store, an update request on the
existing id 0 that supplies title as the empty string is rejected with
status 500 and leaves the store unchanged, so the modification timestamp of
the stored record is not updated — the claim fails for this update request
on an existing id. -/
theorem update_not_always_replace_cex :
    (∃ q ∈ store1.posts, q.id = 0) ∧
    (updatePostHandler store1 0 ⟨some "", some "c", none⟩ 5 none).1.status
      = 500 ∧
    (updatePostHandler store1 0 ⟨some "", some "c", none⟩ 5 none).2
      = store1 ∧
    ∀ q ∈ (updatePostHandler store1 0 ⟨some "", some "c", none⟩ 5 none).2.posts,
      q.updatedAt ≠ 5 := by
  decide

/-- C2 (amended): for every update request on an existing id that does not
supply title or content as the empty string (the schema validators pass),
the update is a full replace of title, content, author: any of these fields
omitted from the request body is written to the stored record as absent,
not left at its previous value, and the modification timestamp is set to
the request time. -/
theorem update_is_full_replace (s : Store) (id : Nat) (b : ReqBody)
    (now : Nat) (hex : ∃ q ∈ s.posts, q.id = id)
    (ht : b.title ≠ some "") (hc : b.content ≠ some "") :
    ∃ p' s',
      updatePostHandler s id b now none =
        ({ status := 200, success := true,
           message := some "Post updated successfully!",
           error := none, post := some p', posts := none }, s') ∧
      p'.title = b.title ∧ p'.content = b.content ∧ p'.author = b.author ∧
      p'.updatedAt = now ∧ findFirst id s'.posts = some p' := by
  obtain ⟨p, hp⟩ := findFirst_isSome hex
  have hT : suppliedRequiredFails b.title = false := by
    cases hb : b.title with
    | none => rfl
    | some a =>
      simp only [suppliedRequiredFails]
      rw [hb] at ht
      simpa using fun h => ht (by rw [h])
  have hC : suppliedRequiredFails b.content = false := by
    cases hb : b.content with
    | none => rfl
    | some a =>
      simp only [suppliedRequiredFails]
      rw [hb] at hc
      simpa using fun h => hc (by rw [h])
  obtain ⟨l1, l2, _, hid, hl1, hu, _⟩ := findFirst_decomp hp
  refine ⟨applyUpdate b now p,
    { s with posts := updateFirst id (applyUpdate b now) s.posts },
    ?_, rfl, rfl, rfl, rfl, ?_⟩
  · simp [updatePostHandler, Post.findByIdAndUpdate, hp, hT, hC]
  · rw [hu (applyUpdate b now)]
    have : ∀ l : List Post, (∀ q ∈ l, q.id ≠ id) →
        findFirst id (l ++ applyUpdate b now p :: l2)
          = some (applyUpdate b now p) := by
      intro l hl
      induction l with
      | nil => simp [findFirst, applyUpdate, hid]
      | cons q rest ih =>
        have hq : q.id ≠ id := hl q (List.mem_cons_self q rest)
        simp only [List.cons_append, findFirst, if_neg hq]
        exact ih fun q' hq' => hl q' (List.mem_cons_of_mem q hq')
    exact this l1 hl1

/-- Witness for the amended C2: updating id 0 of the one-record store with a
body omitting every field yields 200 and a stored record whose title,
content and author are all absent. -/
theorem update_is_full_replace_witness :
    ∃ p' s',
      updatePostHandler store1 0 ⟨none, none, none⟩ 1 none =
        ({ status := 200, success := true,
           message := some "Post updated successfully!",
           error := none, post := some p', posts := none }, s') ∧
      p'.title = (none : Option String) ∧
      p'.content = (none : Option String) ∧
      p'.author = (none : Option String) ∧
      p'.updatedAt = 1 ∧ findFirst 0 s'.posts = some p' :=
  update_is_full_replace store1 0 ⟨none, none, none⟩ 1
    ⟨{ id := 0, title := some "a", content := some "b",
       author := some "Anonymous", createdAt := 0, updatedAt := 0 },
     by decide, rfl⟩
    (by decide) (by decide)

/-- C10: for every update request on an existing id whose body supplies
title or content as the empty string, the handler returns status 500 with a
success:false envelope (the schema's required validators run through
runValidators and the failure surfaces through the catch branch), not 400,
and the store — in particular the targeted record — is unchanged. -/
theorem update_empty_required_field_yields_500 (s : Store) (id : Nat)
    (b : ReqBody) (now : Nat) (hex : ∃ q ∈ s.posts, q.id = id)
    (h : b.title = some "" ∨ b.content = some "") :
    ∃ e, updatePostHandler s id b now none =
      ({ status := 500, success := false, message := some "Server error",
         error := some e, post := none, posts := none }, s) := by
  obtain ⟨p, hp⟩ := findFirst_isSome hex
  by_cases hT : suppliedRequiredFails b.title = true
  · exact ⟨"Validation failed: title is required",
      by simp [updatePostHandler, Post.findByIdAndUpdate, hp, hT]⟩
  · have hC : suppliedRequiredFails b.content = true := by
      rcases h with h | h
      · exact absurd (by simp [suppliedRequiredFails, h]) hT
      · simp [suppliedRequiredFails, h]
    exact ⟨"Validation failed: content is required",
      by simp [updatePostHandler, Post.findByIdAndUpdate, hp,
               Bool.eq_false_iff.mpr hT, hC]⟩

/-- Witness for C10: supplying content as the empty string on the existing
id 0 yields 500 and an unchanged store. -/
theorem update_empty_required_field_yields_500_witness :
    ∃ e, updatePostHandler store1 0 ⟨some "x", some "", none⟩ 4 none =
      ({ status := 500, success := false, message := some "Server error",
         error := some e, post := none, posts := none }, store1) :=
  update_empty_required_field_yields_500 store1 0 ⟨some "x", some "", none⟩ 4
    ⟨{ id := 0, title := some "a", content := some "b",
       author := some "Anonymous", createdAt := 0, updatedAt := 0 },
     by decide, rfl⟩
    (Or.inr rfl)

/-- C7: for every successful (status-200) update, the store splits around
the targeted record: every record before and after it is unchanged and in
place, and the targeted record keeps its id and creation timestamp while
its title, content, author come from the request body and its update
timestamp is the request time; the id generator is untouched. -/
theorem update_frame (s : Store) (id : Nat) (b : ReqBody) (now : Nat)
    (r : ApiResponse) (s' : Store)
    (heq : updatePostHandler s id b now none = (r, s'))
    (hok : r.status = 200) :
    s'.nextId = s.nextId ∧
    ∃ l1 p p' l2,
      s.posts = l1 ++ p :: l2 ∧ p.id = id ∧ (∀ q ∈ l1, q.id ≠ id) ∧
      s'.posts = l1 ++ p' :: l2 ∧
      p'.id = p.id ∧ p'.createdAt = p.createdAt ∧ p'.updatedAt = now ∧
      p'.title = b.title ∧ p'.content = b.content ∧
      p'.author = b.author := by
  cases hp : findFirst id s.posts with
  | none =>
    simp [updatePostHandler, Post.findByIdAndUpdate, hp] at heq
    rw [← heq.1] at hok
    simp at hok
  | some p =>
    by_cases hT : suppliedRequiredFails b.title = true
    · simp [updatePostHandler, Post.findByIdAndUpdate, hp, hT] at heq
      rw [← heq.1] at hok
      simp at hok
    · by_cases hC : suppliedRequiredFails b.content = true
      · simp [updatePostHandler, Post.findByIdAndUpdate, hp,
              Bool.eq_false_iff.mpr hT, hC] at heq
        rw [← heq.1] at hok
        simp at hok
      · simp [updatePostHandler, Post.findByIdAndUpdate, hp,
              Bool.eq_false_iff.mpr hT, Bool.eq_false_iff.mpr hC] at heq
        obtain ⟨l1, l2, hl, hid, hl1, hu, _⟩ := findFirst_decomp hp
        refine ⟨by rw [← heq.2], l1, p, applyUpdate b now p, l2, hl, hid,
          hl1, ?_, rfl, rfl, rfl, rfl, rfl, rfl⟩
        rw [← heq.2]
        exact hu (applyUpdate b now)

/-- Witness for C7 at a concrete successful update of the one-record
store. -/
theorem update_frame_witness :
    (updatePostHandler store1 0 ⟨some "x", some "y", some "z"⟩ 5 none).2.nextId
      = store1.nextId ∧
    ∃ l1 p p' l2,
      store1.posts = l1 ++ p :: l2 ∧ p.id = 0 ∧ (∀ q ∈ l1, q.id ≠ 0) ∧
      (updatePostHandler store1 0 ⟨some "x", some "y", some "z"⟩ 5 none).2.posts
        = l1 ++ p' :: l2 ∧
      p'.id = p.id ∧ p'.createdAt = p.createdAt ∧ p'.updatedAt = 5 ∧
      p'.title = some "x" ∧ p'.content = some "y" ∧
      p'.author = some "z" :=
  update_frame store1 0 ⟨some "x", some "y", some "z"⟩ 5 _ _ rfl rfl

/-- C8: for every delete request whose id matches a stored record (in a
store with pairwise-distinct ids), the DELETE /api/posts/:id handler
removes exactly that record — the records before and after it are unchanged
and in place — and returns status 200 with the removed record's last state;
a second delete of the same id on the resulting store returns status
404. -/
theorem delete_removes_record (s : Store) (id : Nat) (p : Post)
    (hp : findFirst id s.posts = some p)
    (hnd : (s.posts.map Post.id).Nodup) :
    ∃ l1 l2,
      s.posts = l1 ++ p :: l2 ∧ p.id = id ∧
      deletePostHandler s id none =
        ({ status := 200, success := true,
           message := some "Post deleted successfully!",
           error := none, post := some p, posts := none },
         { posts := l1 ++ l2, nextId := s.nextId }) ∧
      (deletePostHandler { posts := l1 ++ l2, nextId := s.nextId } id
          none).1.status = 404 := by
  obtain ⟨l1, l2, hl, hid, hl1, _, hr⟩ := findFirst_decomp hp
  have hnone : findFirst id (l1 ++ l2) = none := by
    apply findFirst_eq_none
    intro q hq
    rcases List.mem_append.mp hq with hq1 | hq2
    · exact hl1 q hq1
    · rw [hl, List.map_append, List.map_cons] at hnd
      have := (List.nodup_append.mp hnd).2
      have hnotin : p.id ∉ l2.map Post.id := (List.nodup_cons.mp this.1).1
      intro hcontra
      exact hnotin (by rw [hid, ← hcontra]; exact List.mem_map_of_mem Post.id hq2)
  refine ⟨l1, l2, hl, hid, ?_, ?_⟩
  · have : Post.findByIdAndDelete s id none =
        .ok (some (p, { s with posts := removeFirst id s.posts })) := by
      simp [Post.findByIdAndDelete, hp]
    simp [deletePostHandler, this, hr]
  · simp [deletePostHandler, Post.findByIdAndDelete, hnone]

/-- Witness for C8: deleting id 0 of the one-record store removes the
record, returns it with status 200, and a second delete yields 404. -/
theorem delete_removes_record_witness :
    ∃ l1 l2,
      store1.posts = l1 ++
        { id := 0, title := some "a", content := some "b",
          author := some "Anonymous", createdAt := 0, updatedAt := 0 } :: l2 ∧
      ({ id := 0, title := some "a", content := some "b",
         author := some "Anonymous", createdAt := 0,
         updatedAt := 0 } : Post).id = 0 ∧
      deletePostHandler store1 0 none =
        ({ status := 200, success := true,
           message := some "Post deleted successfully!",
           error := none,
           post := some { id := 0, title := some "a", content := some "b",
                          author := some "Anonymous", createdAt := 0,
                          updatedAt := 0 },
           posts := none },
         { posts := l1 ++ l2, nextId := store1.nextId }) ∧
      (deletePostHandler { posts := l1 ++ l2, nextId := store1.nextId } 0
          none).1.status = 404 :=
  delete_removes_record store1 0
    { id := 0, title := some "a", content := some "b",
      author := some "Anonymous", createdAt := 0, updatedAt := 0 }
    (by decide) (by decide)

theorem goodPost_create (s : Store) (b : ReqBody) (now : Nat)
    (fault : Option String) (ih : ∀ p ∈ s.posts, goodPost p = true) :
    ∀ p ∈ (createPostHandler s b now fault).2.posts, goodPost p = true := by
  by_cases hg : (jsFalsy b.title || jsFalsy b.content) = true
  · simpa [createPostHandler, hg] using ih
  · have hg' := Bool.not_eq_true _ |>.mp hg
    have ht : jsFalsy b.title = false := by
      cases h : jsFalsy b.title
      · rfl
      · rw [h] at hg'; simp at hg'
    have hc : jsFalsy b.content = false := by
      cases h : jsFalsy b.content
      · rfl
      · rw [h] at hg'; simp at hg'
    cases fault with
    | some e => simpa [createPostHandler, hg', Post.save] using ih
    | none =>
      simp only [createPostHandler, hg', Post.save, ht, hc,
        Bool.false_or, Bool.or_self, if_false, Bool.false_eq_true,
        if_neg, reduceIte]
      intro p hp
      rcases List.mem_append.mp hp with hmem | hnew
      · exact ih p hmem
      · obtain rfl := List.mem_singleton.mp hnew
        simp [goodPost, ht, hc]

theorem goodPost_update (s : Store) (id : Nat) (b : ReqBody) (now : Nat)
    (fault : Option String) (hT : b.title ≠ none) (hC : b.content ≠ none)
    (ih : ∀ p ∈ s.posts, goodPost p = true) :
    ∀ p ∈ (updatePostHandler s id b now fault).2.posts, goodPost p = true := by
  cases fault with
  | some e => simpa [updatePostHandler, Post.findByIdAndUpdate] using ih
  | none =>
    cases hp : findFirst id s.posts with
    | none =>
      simpa [updatePostHandler, Post.findByIdAndUpdate, hp] using ih
    | some p0 =>
      by_cases hvT : suppliedRequiredFails b.title = true
      · simpa [updatePostHandler, Post.findByIdAndUpdate, hp, hvT] using ih
      · by_cases hvC : suppliedRequiredFails b.content = true
        · simpa [updatePostHandler, Post.findByIdAndUpdate, hp,
            Bool.eq_false_iff.mpr hvT, hvC] using ih
        · obtain ⟨t, ht⟩ := Option.ne_none_iff_exists'.mp hT
          obtain ⟨c, hc⟩ := Option.ne_none_iff_exists'.mp hC
          have htne : (t == "") = false := by
            rw [ht] at hvT
            simpa [suppliedRequiredFails] using hvT
          have hcne : (c == "") = false := by
            rw [hc] at hvC
            simpa [suppliedRequiredFails] using hvC
          simp only [updatePostHandler, Post.findByIdAndUpdate, hp,
            Bool.eq_false_iff.mpr hvT, Bool.eq_false_iff.mpr hvC,
            Bool.false_eq_true, if_false, reduceIte]
          intro q hq
          rcases mem_updateFirst hq with hmem | ⟨q0, _, rfl⟩
          · exact ih q hmem
          · simp [goodPost, applyUpdate, jsFalsy, ht, hc, htne, hcne]

theorem goodPost_delete (s : Store) (id : Nat) (fault : Option String)
    (ih : ∀ p ∈ s.posts, goodPost p = true) :
    ∀ p ∈ (deletePostHandler s id fault).2.posts, goodPost p = true := by
  cases fault with
  | some e => simpa [deletePostHandler, Post.findByIdAndDelete] using ih
  | none =>
    cases hp : findFirst id s.posts with
    | none =>
      simpa [deletePostHandler, Post.findByIdAndDelete, hp] using ih
    | some p0 =>
      simp only [deletePostHandler, Post.findByIdAndDelete, hp]
      intro q hq
      exact ih q (mem_removeFirst hq)

/-- C3 (counterexample): the store reached by one valid create followed by
an update of the existing id 0 whose body omits title and content is
reachable, yet its stored record has an absent title and content — the
claimed invariant fails on a reachable store state. -/
theorem stored_nonempty_invariant_cex :
    Reachable store2 ∧ ¬ (∀ p ∈ store2.posts, goodPost p = true) := by
  constructor
  · exact Reachable.update store1 0 ⟨none, none, none⟩ 1 none
      (Reachable.create store0 ⟨some "a", some "b", none⟩ 0 none
        Reachable.empty)
  · decide

/-- C3 (amended): for every store state reachable by creates, deletes and
updates whose bodies supply both title and content, every stored record has
a non-empty title and a non-empty content: creates and deletes always
preserve the invariant, and updates preserve it when they omit neither
field (an update omitting title or content writes that field as absent). -/
theorem stored_nonempty_invariant (s : Store) (h : ReachableFull s) :
    ∀ p ∈ s.posts, goodPost p = true := by
  induction h with
  | empty => intro p hp; simp at hp
  | create s b now fault _ ih => exact goodPost_create s b now fault ih
  | update s id b now fault hT hC _ ih =>
    exact goodPost_update s id b now fault hT hC ih
  | delete s id fault _ ih => exact goodPost_delete s id fault ih

/-- Witness for the amended C3: the record stored by one valid create in
the reachable store `store1` has non-empty title and content. -/
theorem stored_nonempty_invariant_witness :
    goodPost { id := 0, title := some "a", content := some "b",
               author := some "Anonymous", createdAt := 0,
               updatedAt := 0 } = true :=
  stored_nonempty_invariant store1
    (ReachableFull.create store0 ⟨some "a", some "b", none⟩ 0 none
      ReachableFull.empty)
    { id := 0, title := some "a", content := some "b",
      author := some "Anonymous", createdAt := 0, updatedAt := 0 }
    (by decide)

/-- C9: for every route whose handler performs a storage call, a failure
raised by that call is caught inside the handler and converted to a
status-500 success:false envelope carrying the error message, with the
store unchanged; for the create route this holds whenever the body passes
the presence check, since otherwise the handler answers 400 before calling
storage. -/
theorem storage_fault_yields_500 (e : String) :
    (∀ s b now, jsFalsy b.title = false → jsFalsy b.content = false →
      createPostHandler s b now (some e) =
        ({ status := 500, success := false, message := some "Server error",
           error := some e, post := none, posts := none }, s)) ∧
    (∀ s, getPostsHandler s (some e) =
        ({ status := 500, success := false, message := none,
           error := some e, post := none, posts := none }, s)) ∧
    (∀ s id b now, updatePostHandler s id b now (some e) =
        ({ status := 500, success := false, message := some "Server error",
           error := some e, post := none, posts := none }, s)) ∧
    (∀ s id, deletePostHandler s id (some e) =
        ({ status := 500, success := false, message := some "Server error",
           error := some e, post := none, posts := none }, s)) := by
  refine ⟨?_, fun s => rfl, fun s id b now => rfl, fun s id => rfl⟩
  intro s b now ht hc
  simp [createPostHandler, Post.save, ht, hc]

/-- Witness for C9: a storage fault "boom" on a valid create request is
answered with status 500 and the error message. -/
theorem storage_fault_yields_500_witness :
    createPostHandler store1 ⟨some "x", some "y", none⟩ 3 (some "boom") =
      ({ status := 500, success := false, message := some "Server error",
         error := some "boom", post := none, posts := none }, store1) :=
  (storage_fault_yields_500 "boom").1 store1 ⟨some "x", some "y", none⟩ 3
    rfl rfl

end PostCrud
